import Mathlib

/-!
Shallow embedding of the red-paper-clip trade-up API's decision layer:
the portfolio lifecycle state machine, the verification checklist, the
offer workflow, opportunity normalization and dedupe keys, valuation,
trade scoring and ranking, the policy guard, evidence checksums and KPI
aggregation.  Currency and score values are modelled with `ℚ`;
JavaScript `Number(x.toFixed(n))` is modelled as rounding to `n`
decimal places; SHA-256 digests are modelled by an explicit hash
parameter of type `String → String`, since every property stated here
depends only on the hash being a function of its input string.
-/

namespace RedPaperClip

/-- `clamp` from the sources: `Math.min(max, Math.max(min, value))`. -/
def clamp (value lo hi : ℚ) : ℚ := min hi (max lo value)

/-- `Number(x.toFixed(n))`: round to `n` decimal places. -/
def roundTo (n : ℕ) (x : ℚ) : ℚ := (round (x * 10 ^ n) : ℚ) / 10 ^ n

/-! ## Portfolio lifecycle state machine (`portfolio-state-machine.ts`) -/

/-- The nine-value `PortfolioStatus` union type. -/
inductive PortfolioStatus
  | seeded
  | sourcing
  | screened
  | negotiating
  | accepted_pending_verification
  | verified
  | completed
  | failed
  | disputed
  deriving DecidableEq, Repr, Fintype

/-- `portfolioTransitions`: the declared transition table. -/
def portfolioTransitions : PortfolioStatus → List PortfolioStatus
  | .seeded => [.sourcing]
  | .sourcing => [.screened, .failed]
  | .screened => [.negotiating, .failed]
  | .negotiating => [.accepted_pending_verification, .failed]
  | .accepted_pending_verification => [.verified, .failed, .disputed]
  | .verified => [.completed, .failed, .disputed]
  | .completed => []
  | .failed => []
  | .disputed => []

/-- `canTransitionPortfolioStatus`: membership test in the table row. -/
def canTransitionPortfolioStatus (src dst : PortfolioStatus) : Bool :=
  (portfolioTransitions src).contains dst

/-- Result of a transition attempt on a position. -/
inductive TransitionOutcome
  | ok (next : PortfolioStatus)
  | conflict
  deriving DecidableEq, Repr

/-- Modelled from the spec: the portfolio position transition endpoint
(the route handler itself is absent from the sources; only its tests and
the transition-table module are present).  A requested transition is
checked against the table; "every transition attempt outside the table
is rejected (conflict) and never silently clamped". -/
def transitionPortfolioPosition (current target : PortfolioStatus) : TransitionOutcome :=
  if canTransitionPortfolioStatus current target then .ok target else .conflict

/-- The position's status after a transition attempt: the target on
success, unchanged on conflict. -/
def statusAfterTransition (current target : PortfolioStatus) : PortfolioStatus :=
  match transitionPortfolioPosition current target with
  | .ok next => next
  | .conflict => current

/-- The transition table exactly as the specification enumerates it,
as a list of (current, successor) pairs.  Kept separate from
`portfolioTransitions` so that the two can be compared. -/
def specPortfolioTransitionPairs : List (PortfolioStatus × PortfolioStatus) :=
  [(.seeded, .sourcing),
   (.sourcing, .screened), (.sourcing, .failed),
   (.screened, .negotiating), (.screened, .failed),
   (.negotiating, .accepted_pending_verification), (.negotiating, .failed),
   (.accepted_pending_verification, .verified), (.accepted_pending_verification, .failed),
   (.accepted_pending_verification, .disputed),
   (.verified, .completed), (.verified, .failed), (.verified, .disputed)]

/-- C1: a portfolio transition succeeds exactly when the (from, to) pair
is in the declared table, every attempt outside the table is rejected as
a conflict with the position's status unchanged, and in particular
`seeded → verified` directly is a conflict. -/
theorem portfolio_transition_table_exact :
    ∀ src dst : PortfolioStatus,
      (canTransitionPortfolioStatus src dst = true ↔
        (src, dst) ∈ specPortfolioTransitionPairs) ∧
      (transitionPortfolioPosition src dst = .ok dst ↔
        (src, dst) ∈ specPortfolioTransitionPairs) ∧
      (transitionPortfolioPosition src dst = .conflict →
        statusAfterTransition src dst = src) ∧
      transitionPortfolioPosition .seeded .verified = .conflict := by
  decide

/-- Concrete instance of the transition theorem: `seeded → sourcing` is
allowed and a conflicting `seeded → verified` attempt leaves the status
at `seeded`. -/
theorem portfolio_transition_table_exact_witness :
    canTransitionPortfolioStatus .seeded .sourcing = true ∧
    statusAfterTransition .seeded .verified = .seeded :=
  ⟨(portfolio_transition_table_exact .seeded .sourcing).1.mpr (by decide),
   (portfolio_transition_table_exact .seeded .verified).2.2.1 (by decide)⟩

/-! ## Verification checklist (`accepted_pending_verification` branch) -/

/-- Request body of the verification-checklist endpoint: the four
required boolean checks plus the optional `disputed` flag (`false`
models an absent flag). -/
structure VerificationChecklistRequest where
  identityConfirmed : Bool
  conditionConfirmed : Bool
  receiptProvided : Bool
  ownershipProofProvided : Bool
  disputed : Bool
  deriving DecidableEq, Repr, Fintype

/-- The persisted checklist record fields relevant here, matching
`createPortfolioVerificationChecklist` in `auth-repository.ts`, which
stores the `passed` flag and the `outcome_status` it is given. -/
structure ChecklistRecord where
  passed : Bool
  outcomeStatus : PortfolioStatus
  deriving DecidableEq, Repr, Fintype

/-- Result of a verification-checklist run: the persisted record and the
position's resulting status, or a conflict. -/
inductive ChecklistOutcome
  | ok (record : ChecklistRecord) (position : PortfolioStatus)
  | conflict
  deriving DecidableEq, Repr

/-- Modelled from the spec: the verification-checklist endpoint (the
route handler is absent from the sources; its tests and the persistence
method `createPortfolioVerificationChecklist` are present).  Runnable
only when the position is exactly in `accepted_pending_verification`;
`passed` is the conjunction of the four checks; outcome routing is
`passed → verified`, `!passed && disputed → disputed`, otherwise
`failed`; the checklist record stores the outcome status and the
position then transitions to it through the state machine. -/
def runVerificationChecklist (current : PortfolioStatus)
    (req : VerificationChecklistRequest) : ChecklistOutcome :=
  if current = .accepted_pending_verification then
    let passed := req.identityConfirmed && req.conditionConfirmed &&
      req.receiptProvided && req.ownershipProofProvided
    let outcome : PortfolioStatus :=
      if passed then .verified else if req.disputed then .disputed else .failed
    match transitionPortfolioPosition current outcome with
    | .ok next => .ok ⟨passed, outcome⟩ next
    | .conflict => .conflict
  else
    .conflict

/-- C2: the checklist runs only from `accepted_pending_verification`
(conflict otherwise); `passed` is the AND of the four checks; the
position is routed to `verified` / `disputed` / `failed` accordingly;
and the persisted record's outcome status equals the resulting lifecycle
status. -/
theorem verification_checklist_routing :
    ∀ (current : PortfolioStatus) (req : VerificationChecklistRequest),
      ((runVerificationChecklist current req ≠ .conflict) ↔
        current = .accepted_pending_verification) ∧
      (∀ (record : ChecklistRecord) (next : PortfolioStatus),
        runVerificationChecklist current req = .ok record next →
        record.passed = (req.identityConfirmed && req.conditionConfirmed &&
          req.receiptProvided && req.ownershipProofProvided) ∧
        next = (if record.passed then PortfolioStatus.verified
          else if req.disputed then PortfolioStatus.disputed else PortfolioStatus.failed) ∧
        record.outcomeStatus = next) := by
  decide

/-- Concrete instance of the checklist theorem: all four checks true
from `accepted_pending_verification` pass and land on `verified`. -/
theorem verification_checklist_routing_witness :
    (ChecklistRecord.mk true .verified).passed =
      (true && true && true && true) ∧
    PortfolioStatus.verified = (if (ChecklistRecord.mk true .verified).passed
      then PortfolioStatus.verified
      else if false then PortfolioStatus.disputed else PortfolioStatus.failed) ∧
    (ChecklistRecord.mk true .verified).outcomeStatus = PortfolioStatus.verified :=
  (verification_checklist_routing .accepted_pending_verification
      ⟨true, true, true, true, false⟩).2 ⟨true, .verified⟩ .verified (by decide)

/-! ## Offer workflow (`index.ts`) -/

/-- The `OfferStatus` union type. -/
inductive OfferStatus
  | draft
  | approved
  | rejected
  | sent
  deriving DecidableEq, Repr, Fintype

/-- `allowedOfferTransitions` from `buildServer`. -/
def allowedOfferTransitions : OfferStatus → List OfferStatus
  | .draft => [.approved, .rejected]
  | .approved => [.sent, .rejected]
  | .rejected => []
  | .sent => []

/-- Rendering of an offer status inside the conflict message template
literal. -/
def offerStatusText : OfferStatus → String
  | .draft => "draft"
  | .approved => "approved"
  | .rejected => "rejected"
  | .sent => "sent"

/-- The offer fields the workflow reads and writes. -/
structure OfferRecord where
  id : ℕ
  status : OfferStatus
  sentByHumanId : Option String
  deriving DecidableEq, Repr

/-- `updateOfferStatus` from `auth-repository.ts`: sets the status and
`COALESCE`s the sent-by id, keeping the stored value when none is
supplied. -/
def updateOfferStatus (offer : OfferRecord) (status : OfferStatus)
    (sentByHumanId : Option String) : OfferRecord :=
  { offer with
    status := status,
    sentByHumanId := sentByHumanId.or offer.sentByHumanId }

/-- Result of `changeOfferStatus`. -/
inductive ChangeOfferResult
  | notFound
  | conflict (statusCode : ℕ) (error : String)
  | ok (offer : OfferRecord)
  deriving DecidableEq, Repr

/-- Whether a `changeOfferStatus` call succeeded. -/
def ChangeOfferResult.isOk : ChangeOfferResult → Bool
  | .ok _ => true
  | _ => false

/-- `changeOfferStatus` from `buildServer`: looks up the offer, rejects
out-of-table transitions with a 409 conflict naming the from/to pair,
and otherwise persists the new status, passing the actor's id to be
stored only for the `sent` transition. -/
def changeOfferStatus (existing : Option OfferRecord) (targetStatus : OfferStatus)
    (actorUserId : ℕ) : ChangeOfferResult :=
  match existing with
  | none => .notFound
  | some offer =>
    if (allowedOfferTransitions offer.status).contains targetStatus then
      .ok (updateOfferStatus offer targetStatus
        (if targetStatus = .sent then some (toString actorUserId) else none))
    else
      .conflict 409
        ("Invalid transition from " ++ offerStatusText offer.status ++ " to " ++
          offerStatusText targetStatus)

/-- The offer transition table exactly as the specification enumerates
it. -/
def specOfferTransitionPairs : List (OfferStatus × OfferStatus) :=
  [(.draft, .approved), (.draft, .rejected), (.approved, .sent), (.approved, .rejected)]

/-- C3: an offer status change succeeds exactly for the pairs
draft→approved, draft→rejected, approved→sent, approved→rejected;
anything else is a 409 conflict whose message names the attempted
from/to pair and leaves the offer unchanged; and the acting human's id
is attached only on the `sent` transition. -/
theorem offer_transition_table_exact :
    ∀ (offer : OfferRecord) (target : OfferStatus) (actor : ℕ),
      ((changeOfferStatus (some offer) target actor).isOk = true ↔
        (offer.status, target) ∈ specOfferTransitionPairs) ∧
      ((offer.status, target) ∉ specOfferTransitionPairs →
        changeOfferStatus (some offer) target actor =
          .conflict 409 ("Invalid transition from " ++ offerStatusText offer.status ++
            " to " ++ offerStatusText target)) ∧
      (∀ updated, changeOfferStatus (some offer) target actor = .ok updated →
        updated.status = target ∧
        updated.sentByHumanId =
          (if target = .sent then some (toString actor) else offer.sentByHumanId)) := by
  intro offer target actor
  obtain ⟨i, st, sb⟩ := offer
  cases st <;> cases target <;>
    simp [changeOfferStatus, updateOfferStatus, specOfferTransitionPairs,
      allowedOfferTransitions, offerStatusText, ChangeOfferResult.isOk, Option.or]

/-- Concrete instance of the offer transition theorem: `draft → sent`
directly is rejected with a conflict naming the pair, and an
`approved → sent` transition attaches the actor's id. -/
theorem offer_transition_table_exact_witness :
    changeOfferStatus (some ⟨1, .draft, none⟩) .sent 7 =
      .conflict 409 ("Invalid transition from " ++ offerStatusText .draft ++
        " to " ++ offerStatusText .sent) ∧
    ((OfferRecord.mk 2 .sent (some (toString 9))).status = OfferStatus.sent ∧
      (OfferRecord.mk 2 .sent (some (toString 9))).sentByHumanId =
        (if OfferStatus.sent = .sent then some (toString 9) else none)) :=
  ⟨(offer_transition_table_exact ⟨1, .draft, none⟩ .sent 7).2.1 (by decide),
   (offer_transition_table_exact ⟨2, .approved, none⟩ .sent 9).2.2
     ⟨2, .sent, some (toString 9)⟩ (by decide)⟩

/-! ## Opportunity normalization and dedupe fingerprints (`index.ts`) -/

/-- Leading and trailing whitespace removal on the character list
(JavaScript `String.prototype.trim`). -/
def trimChars (l : List Char) : List Char :=
  (((l.dropWhile Char.isWhitespace).reverse).dropWhile Char.isWhitespace).reverse

/-- JavaScript `value.trim()`. -/
def strTrim (s : String) : String := ⟨trimChars s.data⟩

/-- JavaScript `value.toLowerCase()` (ASCII case folding). -/
def strToLower (s : String) : String := ⟨s.data.map Char.toLower⟩

/-- JavaScript `value.replace(/\s+/g, " ")`: every maximal run of
whitespace becomes a single space.  The boolean argument tracks whether
the previous character was whitespace. -/
def collapseWhitespaceAux : Bool → List Char → List Char
  | _, [] => []
  | prevWs, c :: cs =>
    if c.isWhitespace then
      if prevWs then collapseWhitespaceAux true cs
      else ' ' :: collapseWhitespaceAux true cs
    else c :: collapseWhitespaceAux false cs

/-- JavaScript `value.replace(/\s+/g, " ")`. -/
def collapseWhitespace (s : String) : String := ⟨collapseWhitespaceAux false s.data⟩

/-- `normalizeText` from `index.ts`:
`value.trim().toLowerCase().replace(/\s+/g, " ")`. -/
def normalizeText (value : String) : String :=
  collapseWhitespace (strToLower (strTrim value))

/-- `roundedPrice.toFixed(2)` for a value already rounded to two decimal
places: whole part, a dot, and the zero-padded cents (prices reaching
this point are positive, so no sign handling is needed). -/
def fixed2 (x : ℚ) : String :=
  let cents : ℤ := round (x * 100)
  toString (cents / 100) ++ "." ++
    (if (cents % 100).toNat < 10 then "0" else "") ++ toString (cents % 100).toNat

/-- The string hashed into the dedupe fingerprint:
`${source}|${category}|${location}|${title.toLowerCase()}|${roundedPrice.toFixed(2)}`. -/
def dedupeKeyString (source category location title : String) (roundedPrice : ℚ) : String :=
  source ++ "|" ++ category ++ "|" ++ location ++ "|" ++ strToLower title ++ "|" ++
    fixed2 roundedPrice

/-- The raw intake request body (`OpportunityIntakeBody`); `none` models
an absent or non-string/non-number field. -/
structure OpportunityIntakeBody where
  source : Option String
  category : Option String
  location : Option String
  title : Option String
  priceUsd : Option ℚ
  deriving DecidableEq, Repr

/-- The validated value produced by `parseOpportunityInput`. -/
structure ParsedOpportunity where
  source : String
  category : String
  location : String
  title : String
  askValueUsd : ℚ
  dedupeKey : String
  deriving DecidableEq, Repr

/-- The `source` local of `parseOpportunityInput`:
`typeof body.source === "string" ? normalizeText(body.source) : ""`. -/
def opportunitySourceField (body : OpportunityIntakeBody) : String :=
  match body.source with | some s => normalizeText s | none => ""

/-- The `category` local of `parseOpportunityInput`. -/
def opportunityCategoryField (body : OpportunityIntakeBody) : String :=
  match body.category with | some s => normalizeText s | none => ""

/-- The `location` local of `parseOpportunityInput`. -/
def opportunityLocationField (body : OpportunityIntakeBody) : String :=
  match body.location with | some s => normalizeText s | none => ""

/-- The `title` local of `parseOpportunityInput`: trimmed title, or the
`"untitled"` placeholder when blank or absent. -/
def opportunityTitleField (body : OpportunityIntakeBody) : String :=
  match body.title with
  | some s => if 0 < (strTrim s).data.length then strTrim s else "untitled"
  | none => "untitled"

/-- `parseOpportunityInput` from `index.ts`.  The SHA-256 application on
the key string is kept abstract: `dedupeKey` here is the pre-hash key
string, and `dedupeFingerprint` below applies a hash function to it. -/
def parseOpportunityInput (body : OpportunityIntakeBody) : Except String ParsedOpportunity :=
  match body.priceUsd with
  | none => .error "source, category, location, and positive priceUsd are required"
  | some priceUsd =>
    if opportunitySourceField body = "" ∨ opportunityCategoryField body = "" ∨
        opportunityLocationField body = "" ∨ priceUsd ≤ 0 then
      .error "source, category, location, and positive priceUsd are required"
    else
      .ok { source := opportunitySourceField body,
            category := opportunityCategoryField body,
            location := opportunityLocationField body,
            title := opportunityTitleField body,
            askValueUsd := roundTo 2 priceUsd,
            dedupeKey := dedupeKeyString (opportunitySourceField body)
              (opportunityCategoryField body) (opportunityLocationField body)
              (opportunityTitleField body) (roundTo 2 priceUsd) }

/-- The stored fingerprint is `hashApiKey` (SHA-256, modelled as an
arbitrary function of the key string) applied to the dedupe key
string. -/
def dedupeFingerprint (hash : String → String) (p : ParsedOpportunity) : String :=
  hash p.dedupeKey

/-- Intake submission with a capitalized title. -/
def intakeBodyCased : OpportunityIntakeBody :=
  { source := some "craigslist", category := some "tools", location := some "denver",
    title := some "Red Paper Clip", priceUsd := some 1 }

/-- The same submission with the title lowercased. -/
def intakeBodyLower : OpportunityIntakeBody :=
  { source := some "craigslist", category := some "tools", location := some "denver",
    title := some "red paper clip", priceUsd := some 1 }

/-- C4 counterexample: two intake submissions that differ only in the
casing of the title produce the *same* dedupe key string — the title is
lowercased inside the key — so their fingerprints (any function of the
key string) coincide, contradicting the claim that a title casing
difference yields a different fingerprint. -/
theorem dedupe_title_casing_collides :
    (parseOpportunityInput intakeBodyCased).map ParsedOpportunity.dedupeKey =
      (parseOpportunityInput intakeBodyLower).map ParsedOpportunity.dedupeKey ∧
    intakeBodyCased.title ≠ intakeBodyLower.title :=
  ⟨rfl, by decide⟩

/-- Right cancellation for string concatenation. -/
theorem str_append_cancel_right {a b c : String} (h : a ++ c = b ++ c) : a = b := by
  rw [String.ext_iff] at h ⊢
  rw [String.data_append, String.data_append] at h
  exact List.append_cancel_right h

/-- Left cancellation for string concatenation. -/
theorem str_append_cancel_left {a b c : String} (h : a ++ b = a ++ c) : b = c := by
  rw [String.ext_iff] at h ⊢
  rw [String.data_append, String.data_append] at h
  exact List.append_cancel_left h

/-- If a successful parse produced `p`, its dedupe key is the key string
built from its own normalized fields. -/
theorem parseOpportunityInput_ok_key {b : OpportunityIntakeBody} {p : ParsedOpportunity}
    (h : parseOpportunityInput b = .ok p) :
    p.dedupeKey = dedupeKeyString p.source p.category p.location p.title p.askValueUsd := by
  unfold parseOpportunityInput at h
  cases hb : b.priceUsd with
  | none => rw [hb] at h; simp at h
  | some q =>
    rw [hb] at h
    dsimp only at h
    by_cases hcond : opportunitySourceField b = "" ∨ opportunityCategoryField b = "" ∨
        opportunityLocationField b = "" ∨ q ≤ 0
    · rw [if_pos hcond] at h; simp at h
    · rw [if_neg hcond] at h
      simp only [Except.ok.injEq] at h
      subst h
      rfl

/-- C4 (amended): identical normalized (source, category, location,
lowercased title, 2-decimal price) tuples give identical fingerprints
for any hash; a difference confined to a single one of those five key
components gives a different pre-hash key string; and — the amendment —
a title casing difference does *not* separate fingerprints, because the
title is lowercased inside the key. -/
theorem dedupe_fingerprint_characterization :
    ∀ (b₁ b₂ : OpportunityIntakeBody) (p₁ p₂ : ParsedOpportunity),
      parseOpportunityInput b₁ = .ok p₁ → parseOpportunityInput b₂ = .ok p₂ →
      ((p₁.source = p₂.source ∧ p₁.category = p₂.category ∧ p₁.location = p₂.location ∧
        strToLower p₁.title = strToLower p₂.title ∧ p₁.askValueUsd = p₂.askValueUsd) →
        ∀ hash : String → String, dedupeFingerprint hash p₁ = dedupeFingerprint hash p₂) ∧
      ((p₁.category = p₂.category ∧ p₁.location = p₂.location ∧
        strToLower p₁.title = strToLower p₂.title ∧
        fixed2 p₁.askValueUsd = fixed2 p₂.askValueUsd ∧ p₁.source ≠ p₂.source) →
        p₁.dedupeKey ≠ p₂.dedupeKey) ∧
      ((p₁.source = p₂.source ∧ p₁.location = p₂.location ∧
        strToLower p₁.title = strToLower p₂.title ∧
        fixed2 p₁.askValueUsd = fixed2 p₂.askValueUsd ∧ p₁.category ≠ p₂.category) →
        p₁.dedupeKey ≠ p₂.dedupeKey) ∧
      ((p₁.source = p₂.source ∧ p₁.category = p₂.category ∧
        strToLower p₁.title = strToLower p₂.title ∧
        fixed2 p₁.askValueUsd = fixed2 p₂.askValueUsd ∧ p₁.location ≠ p₂.location) →
        p₁.dedupeKey ≠ p₂.dedupeKey) ∧
      ((p₁.source = p₂.source ∧ p₁.category = p₂.category ∧ p₁.location = p₂.location ∧
        fixed2 p₁.askValueUsd = fixed2 p₂.askValueUsd ∧
        strToLower p₁.title ≠ strToLower p₂.title) →
        p₁.dedupeKey ≠ p₂.dedupeKey) ∧
      ((p₁.source = p₂.source ∧ p₁.category = p₂.category ∧ p₁.location = p₂.location ∧
        strToLower p₁.title = strToLower p₂.title ∧
        fixed2 p₁.askValueUsd ≠ fixed2 p₂.askValueUsd) →
        p₁.dedupeKey ≠ p₂.dedupeKey) := by
  intro b₁ b₂ p₁ p₂ h₁ h₂
  have k₁ := parseOpportunityInput_ok_key h₁
  have k₂ := parseOpportunityInput_ok_key h₂
  rw [k₁, k₂]
  unfold dedupeKeyString
  refine ⟨?_, ?_, ?_, ?_, ?_, ?_⟩
  · rintro ⟨hs, hc, hl, ht, hp⟩ hash
    unfold dedupeFingerprint
    rw [k₁, k₂]
    unfold dedupeKeyString
    rw [hs, hc, hl, ht, hp]
  · rintro ⟨hc, hl, ht, hp, hs⟩ heq
    rw [hc, hl, ht, hp] at heq
    exact hs (str_append_cancel_right (str_append_cancel_right (str_append_cancel_right
      (str_append_cancel_right (str_append_cancel_right (str_append_cancel_right
        (str_append_cancel_right (str_append_cancel_right heq))))))))
  · rintro ⟨hs, hl, ht, hp, hc⟩ heq
    rw [hs, hl, ht, hp] at heq
    have h' := str_append_cancel_right (str_append_cancel_right (str_append_cancel_right
      (str_append_cancel_right (str_append_cancel_right (str_append_cancel_right heq)))))
    exact hc (str_append_cancel_left h')
  · rintro ⟨hs, hc, ht, hp, hl⟩ heq
    rw [hs, hc, ht, hp] at heq
    have h' := str_append_cancel_right (str_append_cancel_right (str_append_cancel_right
      (str_append_cancel_right heq)))
    exact hl (str_append_cancel_left h')
  · rintro ⟨hs, hc, hl, hp, ht⟩ heq
    rw [hs, hc, hl, hp] at heq
    have h' := str_append_cancel_right (str_append_cancel_right heq)
    exact ht (str_append_cancel_left h')
  · rintro ⟨hs, hc, hl, ht, hp⟩ heq
    rw [hs, hc, hl, ht] at heq
    exact hp (str_append_cancel_left heq)

/-- Concrete instance of the fingerprint characterization: a
lowercase-vs-capitalized title still collides under any hash
(instantiated at `strToLower`), and changing the source from
`craigslist` to `ebay` separates the key strings. -/
theorem dedupe_fingerprint_characterization_witness :
    dedupeFingerprint strToLower
        ⟨"craigslist", "tools", "denver", "Red Paper Clip", roundTo 2 1,
          dedupeKeyString "craigslist" "tools" "denver" "Red Paper Clip" (roundTo 2 1)⟩ =
      dedupeFingerprint strToLower
        ⟨"craigslist", "tools", "denver", "red paper clip", roundTo 2 1,
          dedupeKeyString "craigslist" "tools" "denver" "red paper clip" (roundTo 2 1)⟩ :=
  (dedupe_fingerprint_characterization intakeBodyCased intakeBodyLower _ _ rfl rfl).1
    ⟨rfl, rfl, rfl, by decide, rfl⟩ strToLower

/-! ## Valuation engine (`valuation.ts`) -/

/-- A comparable sale. -/
structure ValuationComp where
  priceUsd : ℚ
  source : Option String := none
  deriving DecidableEq, Repr

/-- Input of `computeValuation`. -/
structure ValuationInput where
  baseValueUsd : Option ℚ := none
  comps : List ValuationComp
  deriving DecidableEq, Repr

/-- The fields of the valuation result covered by the claims (the
confidence score additionally involves a square root and is outside
every stated property, so it is not embedded). -/
structure ValuationOutcome where
  estimatedValueUsd : ℚ
  modelVersion : String
  deriving DecidableEq, Repr

/-- `median` from `valuation.ts`: sort ascending, take the middle
element, or the mean of the two middle elements when the length is
even.  Callers only apply it to nonempty lists. -/
def median (values : List ℚ) : ℚ :=
  let sorted := List.insertionSort (· ≤ ·) values
  let middle := sorted.length / 2
  if sorted.length % 2 = 0 then (sorted.getD (middle - 1) 0 + sorted.getD middle 0) / 2
  else sorted.getD middle 0

/-- The `compValues` local of `computeValuation`: comp prices filtered
to the positive ones. -/
def valuationCompValues (input : ValuationInput) : List ℚ :=
  (input.comps.map (·.priceUsd)).filter (fun p => 0 < p)

/-- The `compMedian` local of `computeValuation`: median of the positive
comps, or the base value when there are none. -/
def valuationCompMedian (input : ValuationInput) : ℚ :=
  if 0 < (valuationCompValues input).length then median (valuationCompValues input)
  else input.baseValueUsd.getD 0

/-- The `estimatedRaw` local of `computeValuation`:
`0.35 * base + 0.65 * compMedian` when a positive base exists, else
`compMedian`. -/
def valuationEstimatedRaw (input : ValuationInput) : ℚ :=
  if 0 < input.baseValueUsd.getD 0 then
    input.baseValueUsd.getD 0 * (35/100) + valuationCompMedian input * (65/100)
  else valuationCompMedian input

/-- `computeValuation` from `valuation.ts` (estimated value and model
version; the thrown error is modelled as `Except.error`). -/
def computeValuation (input : ValuationInput) : Except String ValuationOutcome :=
  if valuationCompValues input = [] ∧ ¬ 0 < input.baseValueUsd.getD 0 then
    .error "At least one positive comp or base value is required"
  else
    .ok { estimatedValueUsd := roundTo 2 (valuationEstimatedRaw input),
          modelVersion := "rules-v1" }

/-- C5: valuation fails exactly when there is neither a positive base
value nor a positive comp; otherwise the estimate is
`0.35*base + 0.65*compMedian` (rounded to 2 decimals) when a positive
base exists and `compMedian` (rounded to 2 decimals) otherwise; and the
spec's concrete examples: comps 100/120/110 give 110, base 200 with
those comps gives 141.5, and a single comp priced 0 fails. -/
theorem valuation_estimate_correct :
    ∀ input : ValuationInput,
      ((computeValuation input =
          .error "At least one positive comp or base value is required") ↔
        (valuationCompValues input = [] ∧ ¬ 0 < input.baseValueUsd.getD 0)) ∧
      (∀ r, computeValuation input = .ok r →
        r.estimatedValueUsd =
          (if 0 < input.baseValueUsd.getD 0 then
            roundTo 2 (input.baseValueUsd.getD 0 * (35/100) +
              valuationCompMedian input * (65/100))
          else roundTo 2 (valuationCompMedian input))) ∧
      computeValuation ⟨none, [⟨100, none⟩, ⟨120, none⟩, ⟨110, none⟩]⟩ =
        .ok ⟨110, "rules-v1"⟩ ∧
      computeValuation ⟨some 200, [⟨100, none⟩, ⟨120, none⟩, ⟨110, none⟩]⟩ =
        .ok ⟨283/2, "rules-v1"⟩ ∧
      computeValuation ⟨none, [⟨0, none⟩]⟩ =
        .error "At least one positive comp or base value is required" := by
  intro input
  refine ⟨?_, ?_, ?_, ?_, ?_⟩
  · by_cases hcond : valuationCompValues input = [] ∧ ¬ 0 < input.baseValueUsd.getD 0 <;>
      simp [computeValuation, hcond]
  · intro r h
    by_cases hcond : valuationCompValues input = [] ∧ ¬ 0 < input.baseValueUsd.getD 0
    · simp [computeValuation, hcond] at h
    · simp only [computeValuation, if_neg hcond, Except.ok.injEq] at h
      subst h
      by_cases hbase : 0 < input.baseValueUsd.getD 0 <;>
        simp [valuationEstimatedRaw, hbase]
  · have hm : valuationCompMedian ⟨none, [⟨100, none⟩, ⟨120, none⟩, ⟨110, none⟩]⟩ = 110 := by
      simp [valuationCompMedian, valuationCompValues, median, List.insertionSort,
        List.orderedInsert]
      norm_num
    simp [computeValuation, valuationCompValues, valuationEstimatedRaw, hm]
    norm_num [roundTo, round_eq]
  · have hm : valuationCompMedian ⟨some 200, [⟨100, none⟩, ⟨120, none⟩, ⟨110, none⟩]⟩ = 110 := by
      simp [valuationCompMedian, valuationCompValues, median, List.insertionSort,
        List.orderedInsert]
      norm_num
    simp [computeValuation, valuationCompValues, valuationEstimatedRaw, hm]
    norm_num [roundTo, round_eq]
  · simp [computeValuation, valuationCompValues]

/-- Concrete instance of the valuation theorem: the all-comps example
record satisfies the estimate formula. -/
theorem valuation_estimate_correct_witness :
    (ValuationOutcome.mk 110 "rules-v1").estimatedValueUsd =
      (if 0 < (Option.none.getD (0 : ℚ)) then
        roundTo 2 (Option.none.getD (0 : ℚ) * (35/100) +
          valuationCompMedian ⟨none, [⟨100, none⟩, ⟨120, none⟩, ⟨110, none⟩]⟩ * (65/100))
      else roundTo 2 (valuationCompMedian ⟨none, [⟨100, none⟩, ⟨120, none⟩, ⟨110, none⟩]⟩)) :=
  (valuation_estimate_correct ⟨none, [⟨100, none⟩, ⟨120, none⟩, ⟨110, none⟩]⟩).2.1
    ⟨110, "rules-v1"⟩
    (valuation_estimate_correct ⟨none, [⟨100, none⟩, ⟨120, none⟩, ⟨110, none⟩]⟩).2.2.1

/-! ## Trade scoring engine (`scoring.ts`) -/

/-- The six weighted sub-scores. -/
structure TradeScoreComponents where
  valueGain : ℚ
  closeProb : ℚ
  liquidity : ℚ
  storyValue : ℚ
  fraudRisk : ℚ
  timeCost : ℚ
  deriving DecidableEq, Repr

/-- A raw scoring candidate.  `expiresAtTs` is the parsed
`new Date(expiresAt).getTime()` value in milliseconds; `none` models an
absent `expiresAt` or one whose parse is `NaN`. -/
structure RawScoringCandidate where
  opportunityId : ℕ
  targetValueUsd : ℚ
  source : String
  category : String
  sellerRepScore : Option ℚ := none
  expiresAtTs : Option ℚ := none
  deriving DecidableEq, Repr

/-- The `categoryLiquidity` lookup table. -/
def categoryLiquidity (category : String) : Option ℚ :=
  if category = "electronics" then some (72/100)
  else if category = "tools" then some (7/10)
  else if category = "collectibles" then some (58/100)
  else if category = "furniture" then some (42/100)
  else if category = "vehicles" then some (45/100)
  else none

/-- The `sourceStoryValue` lookup table. -/
def sourceStoryValue (source : String) : Option ℚ :=
  if source = "craigslist" then some (62/100)
  else if source = "offerup" then some (55/100)
  else if source = "ebay" then some (1/2)
  else if source = "etsy" then some (46/100)
  else none

/-- `estimateTimeCost`: 0.4 for an absent or unparsable expiry,
otherwise a clamped cost growing as the expiry approaches over a 10-day
horizon.  `nowTs` is `Date.now()` in milliseconds. -/
def estimateTimeCost (nowTs : ℚ) (expiresAtTs : Option ℚ) : ℚ :=
  match expiresAtTs with
  | none => 2/5
  | some expiresTs =>
    clamp (1 - clamp ((expiresTs - nowTs) / (1000 * 60 * 60 * 24) / 10) 0 1) 0 1

/-- `buildScoreComponents` from `scoring.ts`.  Note the floor
`Math.max(candidate.targetValueUsd, 0.01)` applied to the target before
the value-gain ratio. -/
def buildScoreComponents (nowTs : ℚ) (candidate : RawScoringCandidate)
    (currentItemValueUsd : ℚ) : TradeScoreComponents :=
  let targetValueUsd := max candidate.targetValueUsd (1/100)
  let closeProb := clamp (candidate.sellerRepScore.getD (5/2) / 5) 0 1
  { valueGain := (targetValueUsd - currentItemValueUsd) / currentItemValueUsd,
    closeProb := closeProb,
    liquidity := (categoryLiquidity candidate.category).getD (1/2),
    storyValue := (sourceStoryValue candidate.source).getD (1/2),
    fraudRisk := clamp (1 - closeProb +
      (if candidate.source = "craigslist" then 1/10 else 0)) 0 1,
    timeCost := estimateTimeCost nowTs candidate.expiresAtTs }

/-- `computeTradeScore` from `scoring.ts`: the weighted sum rounded to
4 decimals. -/
def computeTradeScore (c : TradeScoreComponents) : ℚ :=
  roundTo 4 ((35/100) * c.valueGain + (2/10) * c.closeProb + (15/100) * c.liquidity +
    (1/10) * c.storyValue - (1/10) * c.fraudRisk - (1/10) * c.timeCost)

/-- C6 counterexample: for a candidate whose target value is 0 (with
current item value 1), the code floors the target at 0.01 before the
ratio, so `valueGain` is −0.99 and not the claim's `(target−current)/current`
= −1. -/
theorem trade_score_value_gain_floor_counterexample :
    (buildScoreComponents 0 ⟨1, 0, "ebay", "tools", none, none⟩ 1).valueGain ≠
      ((0 : ℚ) - 1) / 1 := by
  simp only [buildScoreComponents]
  norm_num

/-- C6 (amended): the six components are as the spec defines them except
that `valueGain` uses the target floored at 0.01 —
`valueGain = (max(target, 0.01) − current)/current` — and the trade
score is the weighted sum `0.35·valueGain + 0.20·closeProb +
0.15·liquidity + 0.10·storyValue − 0.10·fraudRisk − 0.10·timeCost`
rounded to 4 decimals, with the spec's example components scoring
0.44. -/
theorem trade_score_components_correct :
    ∀ (nowTs : ℚ) (candidate : RawScoringCandidate) (currentItemValueUsd : ℚ),
      0 < currentItemValueUsd →
      (buildScoreComponents nowTs candidate currentItemValueUsd).valueGain =
        (max candidate.targetValueUsd (1/100) - currentItemValueUsd) / currentItemValueUsd ∧
      (buildScoreComponents nowTs candidate currentItemValueUsd).closeProb =
        clamp (candidate.sellerRepScore.getD (5/2) / 5) 0 1 ∧
      (buildScoreComponents nowTs candidate currentItemValueUsd).liquidity =
        (categoryLiquidity candidate.category).getD (1/2) ∧
      (buildScoreComponents nowTs candidate currentItemValueUsd).storyValue =
        (sourceStoryValue candidate.source).getD (1/2) ∧
      (buildScoreComponents nowTs candidate currentItemValueUsd).fraudRisk =
        clamp (1 - (buildScoreComponents nowTs candidate currentItemValueUsd).closeProb +
          (if candidate.source = "craigslist" then 1/10 else 0)) 0 1 ∧
      (buildScoreComponents nowTs candidate currentItemValueUsd).timeCost =
        (match candidate.expiresAtTs with
          | none => 2/5
          | some expiresTs =>
            clamp (1 - clamp ((expiresTs - nowTs) / (1000 * 60 * 60 * 24) / 10) 0 1) 0 1) ∧
      (∀ c : TradeScoreComponents, computeTradeScore c =
        roundTo 4 ((35/100) * c.valueGain + (2/10) * c.closeProb + (15/100) * c.liquidity +
          (1/10) * c.storyValue - (1/10) * c.fraudRisk - (1/10) * c.timeCost)) ∧
      computeTradeScore ⟨1/2, 4/5, 7/10, 3/5, 1/5, 2/5⟩ = 44/100 := by
  intro nowTs candidate currentItemValueUsd _
  refine ⟨rfl, rfl, rfl, rfl, rfl, rfl, fun c => rfl, ?_⟩
  show roundTo 4 _ = _
  norm_num [roundTo, round_eq]

/-- Concrete instance of the component theorem at a craigslist
candidate with seller reputation 4 and current value 1. -/
theorem trade_score_components_correct_witness :
    (buildScoreComponents 0 ⟨1, 3, "craigslist", "electronics", some 4, none⟩ 1).valueGain =
      (max (3 : ℚ) (1/100) - 1) / 1 ∧
    (buildScoreComponents 0 ⟨1, 3, "craigslist", "electronics", some 4, none⟩ 1).closeProb =
      clamp ((Option.some (4 : ℚ)).getD (5/2) / 5) 0 1 ∧
    (buildScoreComponents 0 ⟨1, 3, "craigslist", "electronics", some 4, none⟩ 1).liquidity =
      (categoryLiquidity "electronics").getD (1/2) ∧
    (buildScoreComponents 0 ⟨1, 3, "craigslist", "electronics", some 4, none⟩ 1).storyValue =
      (sourceStoryValue "craigslist").getD (1/2) ∧
    (buildScoreComponents 0 ⟨1, 3, "craigslist", "electronics", some 4, none⟩ 1).fraudRisk =
      clamp (1 - (buildScoreComponents 0 ⟨1, 3, "craigslist", "electronics", some 4, none⟩ 1).closeProb +
        (if ("craigslist" : String) = "craigslist" then 1/10 else 0)) 0 1 ∧
    (buildScoreComponents 0 ⟨1, 3, "craigslist", "electronics", some 4, none⟩ 1).timeCost =
      (match (none : Option ℚ) with
        | none => (2 : ℚ)/5
        | some expiresTs =>
          clamp (1 - clamp ((expiresTs - 0) / (1000 * 60 * 60 * 24) / 10) 0 1) 0 1) ∧
    (∀ c : TradeScoreComponents, computeTradeScore c =
      roundTo 4 ((35/100) * c.valueGain + (2/10) * c.closeProb + (15/100) * c.liquidity +
        (1/10) * c.storyValue - (1/10) * c.fraudRisk - (1/10) * c.timeCost)) ∧
    computeTradeScore ⟨1/2, 4/5, 7/10, 3/5, 1/5, 2/5⟩ = 44/100 :=
  trade_score_components_correct 0 ⟨1, 3, "craigslist", "electronics", some 4, none⟩ 1
    (by norm_num)

/-! ## Candidate ranking (`rankCandidates` and the `/scoring/rank` handler) -/

/-- A ranked candidate. -/
structure RankedTradeCandidate where
  opportunityId : ℕ
  targetValueUsd : ℚ
  components : TradeScoreComponents
  tradeScore : ℚ
  deriving DecidableEq, Repr

/-- The sort order of `rankCandidates`: descending by trade score
(the comparator `(a, b) => b.tradeScore - a.tradeScore`). -/
def scoreGE (a b : RankedTradeCandidate) : Prop := b.tradeScore ≤ a.tradeScore

instance : DecidableRel scoreGE :=
  fun a b => inferInstanceAs (Decidable (b.tradeScore ≤ a.tradeScore))

instance : IsTotal RankedTradeCandidate scoreGE :=
  ⟨fun a b => le_total b.tradeScore a.tradeScore⟩

instance : IsTrans RankedTradeCandidate scoreGE :=
  ⟨fun _ _ _ h₁ h₂ => le_trans h₂ h₁⟩

/-- The map step of `rankCandidates`: build the components and score for
one candidate. -/
def mkRankedCandidate (nowTs currentItemValueUsd : ℚ)
    (candidate : RawScoringCandidate) : RankedTradeCandidate :=
  { opportunityId := candidate.opportunityId,
    targetValueUsd := candidate.targetValueUsd,
    components := buildScoreComponents nowTs candidate currentItemValueUsd,
    tradeScore := computeTradeScore (buildScoreComponents nowTs candidate currentItemValueUsd) }

/-- `rankCandidates` from `scoring.ts`: map, sort descending by score
(a stable sort models the JavaScript stable `Array.prototype.sort`),
slice to the limit.  The handler always passes a positive limit, so the
slice is a plain `take`. -/
def rankCandidates (nowTs : ℚ) (rawCandidates : List RawScoringCandidate)
    (currentItemValueUsd : ℚ) (limit : ℕ) : List RankedTradeCandidate :=
  (List.insertionSort scoreGE
    (rawCandidates.map (mkRankedCandidate nowTs currentItemValueUsd))).take limit

/-- The `/scoring/rank` handler's limit clamp:
`Math.max(1, Math.min(limit, 50))`. -/
def scoringRankEffectiveLimit (limit : ℤ) : ℤ := max 1 (min limit 50)

/-- The `/scoring/rank` handler's ranking call: clamp the
caller-supplied limit into 1–50 and rank. -/
def scoringRank (nowTs : ℚ) (candidates : List RawScoringCandidate)
    (currentItemValueUsd : ℚ) (limit : ℤ) : List RankedTradeCandidate :=
  rankCandidates nowTs candidates currentItemValueUsd (scoringRankEffectiveLimit limit).toNat

/-- A sample raw candidate for concrete instances. -/
def sampleRawCandidate : RawScoringCandidate := ⟨1, 10, "ebay", "tools", none, none⟩

/-- C7 counterexample: with caller-supplied limit 0 and one candidate,
the handler clamps the limit up to 1 and returns one element, so the
returned length exceeds `min(limit, 50) = 0`. -/
theorem scoring_rank_limit_zero_counterexample :
    ¬ (((scoringRank 0 [sampleRawCandidate] 1 0).length : ℤ) ≤ min (0 : ℤ) 50) := by
  have hlen : (scoringRank 0 [sampleRawCandidate] 1 0).length = 1 := by
    simp [scoringRank, rankCandidates, scoringRankEffectiveLimit, List.insertionSort,
      List.orderedInsert]
  rw [hlen]
  decide

/-- C7 (amended): the ranked sequence is non-increasing in trade score
and its length is at most the effective limit `max(1, min(limit, 50))`,
which lies in 1–50 and equals `min(limit, 50)` whenever the
caller-supplied limit is at least 1. -/
theorem scoring_rank_sorted_and_bounded :
    ∀ (nowTs : ℚ) (candidates : List RawScoringCandidate)
      (currentItemValueUsd : ℚ) (limit : ℤ),
      List.Sorted (fun a b : ℚ => b ≤ a)
        ((scoringRank nowTs candidates currentItemValueUsd limit).map (·.tradeScore)) ∧
      ((scoringRank nowTs candidates currentItemValueUsd limit).length : ℤ) ≤
        scoringRankEffectiveLimit limit ∧
      1 ≤ scoringRankEffectiveLimit limit ∧
      scoringRankEffectiveLimit limit ≤ 50 ∧
      (1 ≤ limit → scoringRankEffectiveLimit limit = min limit 50) := by
  intro nowTs candidates currentItemValueUsd limit
  refine ⟨?_, ?_, ?_, ?_, ?_⟩
  · have hsorted : List.Sorted scoreGE
        (List.insertionSort scoreGE
          (candidates.map (mkRankedCandidate nowTs currentItemValueUsd))) :=
      List.sorted_insertionSort scoreGE _
    have htake : List.Sorted scoreGE
        (scoringRank nowTs candidates currentItemValueUsd limit) :=
      List.Pairwise.sublist (List.take_sublist _ _) hsorted
    exact List.pairwise_map.mpr htake
  · have h := List.length_take_le (scoringRankEffectiveLimit limit).toNat
      (List.insertionSort scoreGE
        (candidates.map (mkRankedCandidate nowTs currentItemValueUsd)))
    have hnn : (0 : ℤ) ≤ scoringRankEffectiveLimit limit :=
      le_trans zero_le_one (le_max_left 1 _)
    calc ((scoringRank nowTs candidates currentItemValueUsd limit).length : ℤ)
        ≤ ((scoringRankEffectiveLimit limit).toNat : ℤ) := by exact_mod_cast h
      _ = scoringRankEffectiveLimit limit := Int.toNat_of_nonneg hnn
  · exact le_max_left 1 _
  · exact max_le (by norm_num) (min_le_right _ _)
  · intro h1
    exact max_eq_right (le_min h1 (by norm_num))

/-- Concrete instance of the ranking theorem at limit 7. -/
theorem scoring_rank_sorted_and_bounded_witness :
    scoringRankEffectiveLimit 7 = min (7 : ℤ) 50 :=
  (scoring_rank_sorted_and_bounded 0 [sampleRawCandidate] 1 7).2.2.2.2 (by norm_num)

/-! ## Policy guard (`evaluatePolicy` in `index.ts`) -/

/-- A stored policy rule (`getPolicyRule` row). -/
structure PolicyRuleRecord where
  platform : String
  action : String
  allowed : Bool
  reason : String
  deriving DecidableEq, Repr

/-- The decision returned by `evaluatePolicy`. -/
structure PolicyDecision where
  allowed : Bool
  reason : String
  policyCode : String
  deriving DecidableEq, Repr

/-- The audit event written by `evaluatePolicy`, with the payload fields
flattened. -/
structure PolicyAuditEvent where
  eventType : String
  entityType : String
  entityId : String
  actorUserId : ℕ
  allowed : Bool
  reason : String
  policyCode : String
  deriving DecidableEq, Repr

/-- JavaScript `value.toUpperCase()` (ASCII case folding). -/
def strToUpper (s : String) : String := ⟨s.data.map Char.toUpper⟩

/-- `.replace(/[^A-Z0-9]/g, "_")`: every character outside A–Z and 0–9
becomes an underscore. -/
def underscoreNonAlnum (s : String) : String :=
  ⟨s.data.map (fun c =>
    if ('A' ≤ c ∧ c ≤ 'Z') ∨ ('0' ≤ c ∧ c ≤ '9') then c else '_')⟩

/-- `evaluatePolicy` from `buildServer`: normalize both inputs, look up
the rule, derive the decision and policy code, and return the decision
together with the audit events written before returning (exactly one).
The repository is modelled by the lookup function `getPolicyRule`. -/
def evaluatePolicy (getPolicyRule : String → String → Option PolicyRuleRecord)
    (platform action : String) (actorUserId : ℕ) :
    PolicyDecision × List PolicyAuditEvent :=
  let normalizedPlatform := normalizeText platform
  let normalizedAction := normalizeText action
  let rule := getPolicyRule normalizedPlatform normalizedAction
  let allowed := match rule with | some r => r.allowed | none => true
  let reason := match rule with | some r => r.reason | none => "No explicit deny rule found."
  let policyCode := match rule with
    | some _ => "POLICY_" ++ strToUpper normalizedPlatform ++ "_" ++
        underscoreNonAlnum (strToUpper normalizedAction)
    | none => "POLICY_DEFAULT_ALLOW"
  (⟨allowed, reason, policyCode⟩,
   [{ eventType := "policy.decision", entityType := "policy_rule",
      entityId := normalizedPlatform ++ ":" ++ normalizedAction,
      actorUserId := actorUserId, allowed := allowed, reason := reason,
      policyCode := policyCode }])

/-- A rule table holding a single deny rule for ("e-bay", "post offer"),
used for concrete instances. -/
def sampleRuleLookup (platform action : String) : Option PolicyRuleRecord :=
  if platform = "e-bay" ∧ action = "post offer" then
    some ⟨"e-bay", "post offer", false, "Marketplace bans automation."⟩
  else none

/-- C8 counterexample: the underscore replacement is applied only to the
action segment — a platform containing a hyphen keeps it
(`POLICY_E-BAY_POST_OFFER`, not the claimed `POLICY_E_BAY_POST_OFFER`) —
and the no-rule default reason carries a trailing period, `"No explicit
deny rule found."`, not the claimed `"No explicit deny rule found"`. -/
theorem policy_code_and_reason_counterexample :
    (evaluatePolicy sampleRuleLookup "e-bay" "post offer" 7).1.policyCode ≠
      "POLICY_E_BAY_POST_OFFER" ∧
    (evaluatePolicy sampleRuleLookup "e-bay" "post offer" 7).1.policyCode =
      "POLICY_E-BAY_POST_OFFER" ∧
    (evaluatePolicy (fun _ _ => none) "ebay" "post" 7).1.reason ≠
      "No explicit deny rule found" ∧
    (evaluatePolicy (fun _ _ => none) "ebay" "post" 7).1.reason =
      "No explicit deny rule found." := by
  refine ⟨by decide, rfl, by decide, rfl⟩

/-- C8 (amended): with no matching rule the decision is allow with
reason `"No explicit deny rule found."` (trailing period) and code
`POLICY_DEFAULT_ALLOW`; with a matching rule its `allowed` flag decides,
its reason is surfaced verbatim, and the code is
`POLICY_<PLATFORM>_<ACTION>` uppercased with non-alphanumerics replaced
by underscore in the action segment only; in both cases exactly one
audit event recording actor, decision, reason and code is produced as
part of the evaluation. -/
theorem policy_evaluation_characterization :
    ∀ (getPolicyRule : String → String → Option PolicyRuleRecord)
      (platform action : String) (actorUserId : ℕ),
      (evaluatePolicy getPolicyRule platform action actorUserId).2 =
        [⟨"policy.decision", "policy_rule",
          normalizeText platform ++ ":" ++ normalizeText action, actorUserId,
          (evaluatePolicy getPolicyRule platform action actorUserId).1.allowed,
          (evaluatePolicy getPolicyRule platform action actorUserId).1.reason,
          (evaluatePolicy getPolicyRule platform action actorUserId).1.policyCode⟩] ∧
      (getPolicyRule (normalizeText platform) (normalizeText action) = none →
        (evaluatePolicy getPolicyRule platform action actorUserId).1 =
          ⟨true, "No explicit deny rule found.", "POLICY_DEFAULT_ALLOW"⟩) ∧
      (∀ r, getPolicyRule (normalizeText platform) (normalizeText action) = some r →
        (evaluatePolicy getPolicyRule platform action actorUserId).1 =
          ⟨r.allowed, r.reason,
            "POLICY_" ++ strToUpper (normalizeText platform) ++ "_" ++
              underscoreNonAlnum (strToUpper (normalizeText action))⟩) := by
  intro getPolicyRule platform action actorUserId
  refine ⟨?_, ?_, ?_⟩
  · cases h : getPolicyRule (normalizeText platform) (normalizeText action) <;>
      simp [evaluatePolicy, h]
  · intro h
    simp [evaluatePolicy, h]
  · intro r h
    simp [evaluatePolicy, h]

/-- Concrete instance of the policy characterization at the sample deny
rule: the decision surfaces the rule's flag, reason and derived code. -/
theorem policy_evaluation_characterization_witness :
    (evaluatePolicy sampleRuleLookup "e-bay" "post offer" 7).1 =
      ⟨(PolicyRuleRecord.mk "e-bay" "post offer" false "Marketplace bans automation.").allowed,
        (PolicyRuleRecord.mk "e-bay" "post offer" false "Marketplace bans automation.").reason,
        "POLICY_" ++ strToUpper (normalizeText "e-bay") ++ "_" ++
          underscoreNonAlnum (strToUpper (normalizeText "post offer"))⟩ :=
  (policy_evaluation_characterization sampleRuleLookup "e-bay" "post offer" 7).2.2
    ⟨"e-bay", "post offer", false, "Marketplace bans automation."⟩ (by decide)

/-! ## KPI aggregation (`computeDashboardMetrics` in `auth-repository.ts`)

The SQL aggregates are embedded as list folds over row models: `SUM`
over nullable columns is the sum of the values with `NULL` as 0 (SQL
skips `NULL` summands and the final `COALESCE(…, 0)` covers the empty
case), and `percentile_cont(0.5)` over the cycle times is the standard
interpolated median, `NULL`-coalesced to 0 when there are no rows. -/

/-- Task status union type. -/
inductive TaskStatus
  | queued
  | in_progress
  | completed
  | failed
  deriving DecidableEq, Repr

/-- The columns of a portfolio position row (joined with its item) read
by the KPI queries.  Timestamps are epoch seconds. -/
structure PositionAggRow where
  currentStatus : PortfolioStatus
  acquisitionValueUsd : Option ℚ
  itemEstValueUsd : Option ℚ
  createdAt : ℚ
  updatedAt : ℚ
  deriving DecidableEq, Repr

/-- The five aggregate metrics. -/
structure DashboardMetrics where
  valueMultiple : ℚ
  closeRate : ℚ
  medianCycleTimeDays : ℚ
  fraudLossPct : ℚ
  activeTasks : ℕ
  deriving DecidableEq, Repr

/-- The seven statuses whose backing item values count toward the
current portfolio value. -/
def kpiNonFailureStatuses : List PortfolioStatus :=
  [.seeded, .sourcing, .screened, .negotiating, .accepted_pending_verification,
   .verified, .completed]

/-- `SUM(i.est_value_usd)` over positions in the seven counted statuses. -/
def kpiTotalValue (positions : List PositionAggRow) : ℚ :=
  ((positions.filter (fun p => p.currentStatus ∈ kpiNonFailureStatuses)).map
    (fun p => p.itemEstValueUsd.getD 0)).sum

/-- `COUNT(*) FILTER (WHERE status = 'sent')` over the offers. -/
def kpiSentCount (offers : List OfferStatus) : ℕ :=
  (offers.filter (fun s => s = .sent)).length

/-- The per-position cycle times `(updated_at - created_at) / 86400`
over completed positions. -/
def kpiCompletedCycleDays (positions : List PositionAggRow) : List ℚ :=
  (positions.filter (fun p => p.currentStatus = .completed)).map
    (fun p => (p.updatedAt - p.createdAt) / 86400)

/-- `SUM(CASE WHEN status = 'disputed' THEN acquisition_value_usd ELSE 0 END)`. -/
def kpiDisputedValue (positions : List PositionAggRow) : ℚ :=
  ((positions.filter (fun p => p.currentStatus = .disputed)).map
    (fun p => p.acquisitionValueUsd.getD 0)).sum

/-- `SUM(pp.acquisition_value_usd)` over all positions. -/
def kpiTotalAcquisitionValue (positions : List PositionAggRow) : ℚ :=
  (positions.map (fun p => p.acquisitionValueUsd.getD 0)).sum

/-- `COUNT(*)` of tasks with status queued or in_progress. -/
def kpiActiveTasks (tasks : List TaskStatus) : ℕ :=
  (tasks.filter (fun t => t = .queued ∨ t = .in_progress)).length

/-- `computeDashboardMetrics` from `auth-repository.ts`: the final
arithmetic over the aggregates, with the seed cost normalized to 1 when
non-positive and each ratio guarded and rounded to 4 decimals. -/
def computeDashboardMetrics (seedCostUsd : ℚ) (positions : List PositionAggRow)
    (offers : List OfferStatus) (tasks : List TaskStatus) : DashboardMetrics :=
  { valueMultiple := roundTo 4
      (kpiTotalValue positions / (if 0 < seedCostUsd then seedCostUsd else 1)),
    closeRate := roundTo 4
      (if 0 < offers.length then (kpiSentCount offers : ℚ) / (offers.length : ℚ) else 0),
    medianCycleTimeDays := roundTo 4
      (if kpiCompletedCycleDays positions = [] then 0
       else median (kpiCompletedCycleDays positions)),
    fraudLossPct := roundTo 4
      (if 0 < kpiTotalAcquisitionValue positions then
        kpiDisputedValue positions / kpiTotalAcquisitionValue positions * 100
      else 0),
    activeTasks := kpiActiveTasks tasks }

/-- C9: KPI computation never divides by a non-positive denominator —
a non-positive seed cost is replaced by 1, the close rate is 0 with no
offers, the fraud-loss percentage is 0 when the summed acquisition value
is 0, the median cycle time is 0 with no completed positions — and each
ratio is rounded to 4 decimals per the characterization equalities. -/
theorem kpi_denominator_safety :
    ∀ (seedCostUsd : ℚ) (positions : List PositionAggRow)
      (offers : List OfferStatus) (tasks : List TaskStatus),
      (seedCostUsd ≤ 0 →
        (computeDashboardMetrics seedCostUsd positions offers tasks).valueMultiple =
          roundTo 4 (kpiTotalValue positions / 1)) ∧
      (offers = [] →
        (computeDashboardMetrics seedCostUsd positions offers tasks).closeRate = 0) ∧
      (kpiTotalAcquisitionValue positions = 0 →
        (computeDashboardMetrics seedCostUsd positions offers tasks).fraudLossPct = 0) ∧
      (positions.filter (fun p => p.currentStatus = .completed) = [] →
        (computeDashboardMetrics seedCostUsd positions offers tasks).medianCycleTimeDays = 0) ∧
      (computeDashboardMetrics seedCostUsd positions offers tasks).valueMultiple =
        roundTo 4 (kpiTotalValue positions / (if 0 < seedCostUsd then seedCostUsd else 1)) ∧
      (computeDashboardMetrics seedCostUsd positions offers tasks).closeRate =
        roundTo 4 (if 0 < offers.length then
          (kpiSentCount offers : ℚ) / (offers.length : ℚ) else 0) ∧
      (computeDashboardMetrics seedCostUsd positions offers tasks).fraudLossPct =
        roundTo 4 (if 0 < kpiTotalAcquisitionValue positions then
          kpiDisputedValue positions / kpiTotalAcquisitionValue positions * 100 else 0) ∧
      (computeDashboardMetrics seedCostUsd positions offers tasks).medianCycleTimeDays =
        roundTo 4 (if kpiCompletedCycleDays positions = [] then 0
          else median (kpiCompletedCycleDays positions)) := by
  intro seedCostUsd positions offers tasks
  refine ⟨?_, ?_, ?_, ?_, rfl, rfl, rfl, rfl⟩
  · intro h
    simp [computeDashboardMetrics, not_lt.mpr h]
  · intro h
    subst h
    simp [computeDashboardMetrics, roundTo]
  · intro h
    simp [computeDashboardMetrics, h, roundTo]
  · intro h
    have hcd : kpiCompletedCycleDays positions = [] := by
      simp [kpiCompletedCycleDays, h]
    simp [computeDashboardMetrics, hcd, roundTo]

/-- Concrete instance of the KPI safety theorem with a negative seed
cost and empty inputs. -/
theorem kpi_denominator_safety_witness :
    (computeDashboardMetrics (-1) [] [] []).valueMultiple =
      roundTo 4 (kpiTotalValue [] / 1) ∧
    (computeDashboardMetrics (-1) [] [] []).closeRate = 0 ∧
    (computeDashboardMetrics (-1) [] [] []).fraudLossPct = 0 ∧
    (computeDashboardMetrics (-1) [] [] []).medianCycleTimeDays = 0 :=
  ⟨(kpi_denominator_safety (-1) [] [] []).1 (by norm_num),
   (kpi_denominator_safety (-1) [] [] []).2.1 rfl,
   (kpi_denominator_safety (-1) [] [] []).2.2.1 rfl,
   (kpi_denominator_safety (-1) [] [] []).2.2.2.1 rfl⟩

/-! ## Evidence checksums (`resolveEvidenceChecksum` in `index.ts`) -/

/-- `resolveEvidenceChecksum`: a supplied non-blank checksum is trimmed
and lowercased; otherwise the checksum is the hash (SHA-256, modelled as
an explicit function parameter) of `mediaUrl + "|" + capturedAt`. -/
def resolveEvidenceChecksum (hash : String → String) (mediaUrl capturedAt : String)
    (providedChecksum : Option String) : String :=
  match providedChecksum with
  | some provided =>
    if provided ≠ "" ∧ 0 < (strTrim provided).data.length then strToLower (strTrim provided)
    else hash (mediaUrl ++ "|" ++ capturedAt)
  | none => hash (mediaUrl ++ "|" ++ capturedAt)

/-- C10: with no supplied checksum the stored checksum is the hash of
`mediaUrl + "|" + capturedAt`, so it is a pure function of the
(mediaUrl, capturedAt) pair: identical pairs give identical
checksums. -/
theorem evidence_checksum_deterministic :
    ∀ (hash : String → String) (mediaUrl capturedAt mediaUrl' capturedAt' : String),
      resolveEvidenceChecksum hash mediaUrl capturedAt none =
        hash (mediaUrl ++ "|" ++ capturedAt) ∧
      (mediaUrl = mediaUrl' → capturedAt = capturedAt' →
        resolveEvidenceChecksum hash mediaUrl capturedAt none =
          resolveEvidenceChecksum hash mediaUrl' capturedAt' none) := by
  intro hash mediaUrl capturedAt mediaUrl' capturedAt'
  exact ⟨rfl, by rintro rfl rfl; rfl⟩

/-- Concrete instance of checksum determinism: two captures of the same
media url at the same timestamp, hashed by an arbitrary concrete
function, agree. -/
theorem evidence_checksum_deterministic_witness :
    resolveEvidenceChecksum strToUpper "https://cdn/x.jpg" "2026-01-01T00:00:00Z" none =
      strToUpper ("https://cdn/x.jpg" ++ "|" ++ "2026-01-01T00:00:00Z") ∧
    resolveEvidenceChecksum strToUpper "https://cdn/x.jpg" "2026-01-01T00:00:00Z" none =
      resolveEvidenceChecksum strToUpper "https://cdn/x.jpg" "2026-01-01T00:00:00Z" none :=
  ⟨(evidence_checksum_deterministic strToUpper "https://cdn/x.jpg" "2026-01-01T00:00:00Z"
      "https://cdn/x.jpg" "2026-01-01T00:00:00Z").1,
   (evidence_checksum_deterministic strToUpper "https://cdn/x.jpg" "2026-01-01T00:00:00Z"
      "https://cdn/x.jpg" "2026-01-01T00:00:00Z").2 rfl rfl⟩

end RedPaperClip
